import Mathlib

/-!
Verification development for the harborside facilities work-order
application.  The definitions below are shallow embeddings of the
relevant SQL stored procedures, trigger functions and client-side
handlers; theorems settle the frozen claims about them.
-/

namespace Harborside

/-- Server-side status enum.  Migration 20250905105436 declares
work_status AS ENUM with exactly these five labels; no later migration
alters the type, so there is no label for a paused state. -/
inductive WorkStatus where
  | pending
  | approved
  | rejected
  | in_progress
  | completed
deriving DecidableEq, Repr

/-- Parsing of a status string into the server enum, mirroring how the
database resolves a textual literal against the declared enum labels. -/
def WorkStatus.ofString (s : String) : Option WorkStatus :=
  if s = "pending" then some .pending
  else if s = "approved" then some .approved
  else if s = "rejected" then some .rejected
  else if s = "in_progress" then some .in_progress
  else if s = "completed" then some .completed
  else none

/-- Client-side status union from the WorkRequest type in
WorkOrderManagement.tsx: it has six literals, including a paused state
that the server enum lacks. -/
inductive ClientStatus where
  | pending
  | approved
  | rejected
  | in_progress
  | paused
  | completed
deriving DecidableEq, Repr

/-- Membership of a string in the client-side status union. -/
def ClientStatus.ofString (s : String) : Option ClientStatus :=
  if s = "pending" then some .pending
  else if s = "approved" then some .approved
  else if s = "rejected" then some .rejected
  else if s = "in_progress" then some .in_progress
  else if s = "paused" then some .paused
  else if s = "completed" then some .completed
  else none

/-- Checklist item shape used by the approval dialog, the
approval_checklist column payload. -/
structure ChecklistItem where
  id : String
  text : String
  completed : Bool
deriving DecidableEq, Repr

/-- Row of the work_requests table, restricted to the columns that the
status procedures read or write.  Timestamps are modelled as natural
numbers (now() is passed in explicitly), numeric hours as rationals. -/
structure ServerRow where
  id : String
  work_order_id : Option String := none
  status : WorkStatus := .pending
  requested_date : String := ""
  updated_at : Nat := 0
  approved_by : Option String := none
  approved_at : Option Nat := none
  rejected_by : Option String := none
  rejected_at : Option Nat := none
  rejected_reason : Option String := none
  started_by : Option String := none
  started_at : Option Nat := none
  completed_by : Option String := none
  completed_at : Option Nat := none
  actual_hours : Option Rat := none
  completion_notes : Option String := none
  date_changed_reason : Option String := none
  approval_checklist : Option (List ChecklistItem) := none
deriving DecidableEq, Repr

/-- Arguments of public.update_work_request_status in its final form
(src/unnamed/part_004): every argument after the status defaults to
NULL, modelled as none. -/
structure UpdateArgs where
  status : WorkStatus
  user_name : Option String := none
  reason : Option String := none
  hours : Option Rat := none
  notes : Option String := none
  new_requested_date : Option String := none
deriving DecidableEq, Repr

/-- Embedding of the body of public.update_work_request_status
(src/unnamed/part_004) applied to the row matched by the WHERE clause.
Each CASE WHEN branch of the SQL UPDATE becomes an if on the target
status; COALESCE(_new_requested_date, requested_date) becomes getD.
The value now stands for now(). -/
def update_work_request_status (row : ServerRow) (a : UpdateArgs) (now : Nat) : ServerRow :=
  { row with
    status := a.status
    updated_at := now
    requested_date := a.new_requested_date.getD row.requested_date
    approved_by := if a.status = .approved then a.user_name else row.approved_by
    approved_at := if a.status = .approved then some now else row.approved_at
    rejected_by := if a.status = .rejected then a.user_name else row.rejected_by
    rejected_at := if a.status = .rejected then some now else row.rejected_at
    rejected_reason := if a.status = .rejected then a.reason else row.rejected_reason
    started_by := if a.status = .in_progress then a.user_name else row.started_by
    started_at := if a.status = .in_progress then some now else row.started_at
    completed_by := if a.status = .completed then a.user_name else row.completed_by
    completed_at := if a.status = .completed then some now else row.completed_at
    actual_hours := if a.status = .completed then a.hours else row.actual_hours
    completion_notes := if a.status = .completed then a.notes else row.completion_notes }

/-- Concrete freshly submitted row used in concrete evaluations. -/
def sampleRow : ServerRow :=
  { id := "req-1", work_order_id := some "WO-12", status := .pending,
    requested_date := "2025-01-01" }

/-- Client-side WorkRequest record from WorkOrderManagement.tsx,
restricted to the fields read or written by the handlers and filters
under study.  Status and dates are plain strings, as in the TSX type. -/
structure ClientRequest where
  id : String
  work_order_id : Option String := none
  requestor_name : String := ""
  department : String := ""
  title : String := ""
  priority : String := ""
  status : String := "pending"
  requested_date : String := ""
  approved_by : Option String := none
  approved_at : Option String := none
  rejected_by : Option String := none
  rejected_at : Option String := none
  rejected_reason : Option String := none
  started_by : Option String := none
  started_at : Option String := none
  completed_by : Option String := none
  completed_at : Option String := none
  actual_hours : Option Rat := none
  completion_notes : Option String := none
  approval_checklist : Option (List ChecklistItem) := none
deriving DecidableEq, Repr

/-- Case-insensitive substring test, the embedding of
f.toLowerCase().includes(q.toLowerCase()) used by the search filter. -/
def strIncludes (f q : String) : Bool :=
  decide (q.toLower.data <:+: f.toLower.data)

/-- Search condition of the filtered memo in WorkOrderManagement.tsx:
an empty search matches everything, otherwise one of title, requestor
name, department or work-order code (empty fallback) must contain the
search text case-insensitively. -/
def matchesSearch (search : String) (r : ClientRequest) : Bool :=
  search.isEmpty ||
    [r.title, r.requestor_name, r.department, r.work_order_id.getD ""].any
      (fun f => strIncludes f search)

/-- Full row predicate of the filtered memo: search, status filter and
priority filter, each filter disabled by the value "all". -/
def matchesFilter (search statusFilter priorityFilter : String) (r : ClientRequest) : Bool :=
  matchesSearch search r &&
  (statusFilter == "all" || r.status == statusFilter) &&
  (priorityFilter == "all" || r.priority == priorityFilter)

/-- The filtered memo itself: requests.filter over the row predicate. -/
def filtered (requests : List ClientRequest) (search statusFilter priorityFilter : String) :
    List ClientRequest :=
  requests.filter (matchesFilter search statusFilter priorityFilter)

/-- Row predicate of filteredRequests in the calendar page
(src/unnamed/part_009): department and status filters only. -/
def calendarMatches (filterDepartment filterStatus : String) (r : ClientRequest) : Bool :=
  (filterDepartment == "all" || r.department == filterDepartment) &&
  (filterStatus == "all" || r.status == filterStatus)

/-- The calendar page filter: workRequests.filter over its predicate. -/
def filteredRequests (workRequests : List ClientRequest) (filterDepartment filterStatus : String) :
    List ClientRequest :=
  workRequests.filter (calendarMatches filterDepartment filterStatus)

/-- Outcome surfaced to the user by a handler: a success toast or a
destructive (error) toast. -/
inductive ToastKind where
  | success
  | destructive
deriving DecidableEq, Repr

/-- Shape of a supabase.rpc call to update_work_request_status as the
client issues it: the status travels as a string literal. -/
structure StatusRpcCall where
  request_id : String
  status : String
  user_name : Option String := none
  reason : Option String := none
  hours : Option Rat := none
  notes : Option String := none
  new_requested_date : Option String := none
deriving DecidableEq, Repr

/-- The RPC endpoint as the database executes it: the textual status is
resolved against the work_status enum; an unknown label is a type error
and no update runs, modelled as none. -/
def serverTransition (row : ServerRow) (call : StatusRpcCall) (now : Nat) : Option ServerRow :=
  (WorkStatus.ofString call.status).map fun s =>
    update_work_request_status row
      { status := s, user_name := call.user_name, reason := call.reason,
        hours := call.hours, notes := call.notes,
        new_requested_date := call.new_requested_date } now

/-- The RPC call issued by handlePause: only the request id and the
status string "paused". -/
def pauseRpc (req : ClientRequest) : StatusRpcCall :=
  { request_id := req.id, status := "paused" }

/-- Embedding of handlePause: rpcError is the error field of the awaited
call; on error the catch block fires a destructive toast and the list is
untouched, on success the list is mapped to flip the matching row to the
paused status. -/
def handlePause (rpcError : Option String) (req : ClientRequest)
    (prev : List ClientRequest) : List ClientRequest × ToastKind :=
  match rpcError with
  | some _ => (prev, .destructive)
  | none =>
      (prev.map (fun r => if r.id == req.id then { r with status := "paused" } else r),
       .success)

/-- Embedding of handleResume: same shape as handlePause with target
status in_progress. -/
def handleResume (rpcError : Option String) (req : ClientRequest)
    (prev : List ClientRequest) : List ClientRequest × ToastKind :=
  match rpcError with
  | some _ => (prev, .destructive)
  | none =>
      (prev.map (fun r => if r.id == req.id then { r with status := "in_progress" } else r),
       .success)

/-- Embedding of handleStartWork: on success the matching row gets
status in_progress, a fresh started_at and started_by Admin. -/
def handleStartWork (rpcError : Option String) (req : ClientRequest) (now : String)
    (prev : List ClientRequest) : List ClientRequest × ToastKind :=
  match rpcError with
  | some _ => (prev, .destructive)
  | none =>
      (prev.map (fun r =>
         if r.id == req.id then
           { r with status := "in_progress", started_at := some now,
                    started_by := some "Admin" }
         else r),
       .success)

/-- Model of the JavaScript String.prototype.trim used by the dialogs:
whitespace stripped from both ends, written structurally over the
character list. -/
def jsTrim (s : String) : String :=
  ⟨(((s.data.dropWhile Char.isWhitespace).reverse.dropWhile Char.isWhitespace).reverse)⟩

/-- RPC issued by the approval dialog: either the status procedure
(date-changed path) or the plain approve_work_request procedure. -/
inductive ApproveRpc where
  | updateStatus (call : StatusRpcCall)
  | approveSimple (request_id : String) (approved_by_user : String)
deriving DecidableEq, Repr

/-- The call the approval dialog handleSubmit issues: none when the
guard fires (date changed but empty trimmed reason); with a changed date
it calls update_work_request_status with user Admin, the trimmed reason
and the new date; otherwise it calls approve_work_request. -/
def approvalRpcIssued (target : ClientRequest) (newDate dateReason : String) :
    Option ApproveRpc :=
  let dateChanged := newDate != target.requested_date
  if dateChanged && (jsTrim dateReason).isEmpty then none
  else if dateChanged then
    some (.updateStatus
      { request_id := target.id, status := "approved", user_name := some "Admin",
        reason := some (jsTrim dateReason), new_requested_date := some newDate })
  else some (.approveSimple target.id "Admin")

/-- State effect of the approval dialog handleSubmit.  The second error
argument stands for the result of the follow-up approval_checklist
update; the source never inspects it, so it is deliberately unused
here. -/
def approvalHandleSubmit (target : ClientRequest) (newDate dateReason : String)
    (checklistItems : List ChecklistItem) (rpcError : Option String)
    (_checklistSaveError : Option String) (now : String)
    (prev : List ClientRequest) : List ClientRequest × ToastKind :=
  let dateChanged := newDate != target.requested_date
  if dateChanged && (jsTrim dateReason).isEmpty then (prev, .destructive)
  else
    match rpcError with
    | some _ => (prev, .destructive)
    | none =>
        (prev.map (fun r =>
           if r.id == target.id then
             { r with status := "approved", approved_by := some "Admin",
                      approved_at := some now,
                      requested_date := if dateChanged then newDate else r.requested_date,
                      approval_checklist :=
                        if checklistItems.length > 0 then some checklistItems
                        else r.approval_checklist }
           else r),
         .success)

/-- The call the reject dialog handleSubmit issues: none when the
trimmed reason is shorter than 10 characters, otherwise the status
procedure with status rejected, user Admin and the trimmed reason. -/
def rejectRpcIssued (target : ClientRequest) (reason : String) : Option StatusRpcCall :=
  if (jsTrim reason).length < 10 then none
  else
    some { request_id := target.id, status := "rejected",
           user_name := some "Admin", reason := some (jsTrim reason) }

/-- State effect of the reject dialog handleSubmit. -/
def rejectHandleSubmit (target : ClientRequest) (reason : String)
    (rpcError : Option String) (now : String)
    (prev : List ClientRequest) : List ClientRequest × ToastKind :=
  if (jsTrim reason).length < 10 then (prev, .destructive)
  else
    match rpcError with
    | some _ => (prev, .destructive)
    | none =>
        (prev.map (fun r =>
           if r.id == target.id then
             { r with status := "rejected", rejected_by := some "Admin",
                      rejected_at := some now, rejected_reason := some (jsTrim reason) }
           else r),
         .success)

/-- Shape of the complete_work RPC as issued by the complete dialog. -/
structure CompleteWorkCall where
  started_id : String
  completed_by_user : String
  actual_hours_worked : Rat
  notes : Option String := none
deriving DecidableEq, Repr

/-- The call the complete dialog handleSubmit issues: none when hours
are not positive, otherwise complete_work with user Admin, the hours and
the trimmed notes (null when blank). -/
def completeRpcIssued (target : ClientRequest) (hours : Rat) (notes : String) :
    Option CompleteWorkCall :=
  if hours ≤ 0 then none
  else
    some { started_id := target.id, completed_by_user := "Admin",
           actual_hours_worked := hours,
           notes := if (jsTrim notes).isEmpty then none else some (jsTrim notes) }

/-- State effect of the complete dialog handleSubmit. -/
def completeHandleSubmit (target : ClientRequest) (hours : Rat) (notes : String)
    (rpcError : Option String) (now : String)
    (prev : List ClientRequest) : List ClientRequest × ToastKind :=
  if hours ≤ 0 then (prev, .destructive)
  else
    match rpcError with
    | some _ => (prev, .destructive)
    | none =>
        (prev.map (fun r =>
           if r.id == target.id then
             { r with status := "completed", completed_by := some "Admin",
                      completed_at := some now, actual_hours := some hours,
                      completion_notes :=
                        if (jsTrim notes).isEmpty then none else some (jsTrim notes) }
           else r),
         .success)

/-- Outcome of the calendar handleSaveChanges: no pending change, the
reason dialog is raised, the save failed, or the save succeeded. -/
inductive SaveOutcome where
  | noChanges
  | needReason
  | saveFailed
  | saved
deriving DecidableEq, Repr

/-- Row update issued by the calendar save for one moved work order: the
new requested date together with the trimmed reason (null when blank),
written into date_changed_reason. -/
def calendarDbUpdate (dateChangeReason nd : String) (row : ServerRow) : ServerRow :=
  { row with requested_date := nd,
             date_changed_reason :=
               if (jsTrim dateChangeReason).isEmpty then none
               else some (jsTrim dateChangeReason) }

/-- Embedding of the calendar handleSaveChanges: empty pending map is a
no-op; moved orders without a trimmed reason raise the reason dialog and
issue nothing; a database error anywhere in the update loop leaves the
local list untouched; on success each moved row gets its new date. -/
def handleSaveChanges (pendingChanges : List (String × String))
    (pendingDateChangesNonempty : Bool) (dateChangeReason : String)
    (dbError : Option String) (prev : List ClientRequest) :
    List ClientRequest × SaveOutcome :=
  if pendingChanges.isEmpty then (prev, .noChanges)
  else if pendingDateChangesNonempty && (jsTrim dateChangeReason).isEmpty then
    (prev, .needReason)
  else
    match dbError with
    | some _ => (prev, .saveFailed)
    | none =>
        (prev.map (fun r =>
           match pendingChanges.lookup r.id with
           | some nd => { r with requested_date := nd }
           | none => r),
         .saved)

/-- Realtime change-feed payloads handled by the subscription effect in
WorkOrderManagement.tsx. -/
inductive RealtimeEvent where
  | insert (row : ClientRequest)
  | update (row : ClientRequest)
  | delete (oldId : String)
deriving DecidableEq, Repr

/-- Embedding of the postgres_changes callback: INSERT prepends the new
row, UPDATE maps the list replacing rows with the matching id, DELETE
filters out rows with the matching id. -/
def handleRealtimeEvent (ev : RealtimeEvent) (prev : List ClientRequest) :
    List ClientRequest :=
  match ev with
  | .insert row => row :: prev
  | .update row => prev.map fun r => if r.id == row.id then row else r
  | .delete oldId => prev.filter fun r => r.id != oldId

/-- Decimal digit character for a digit value below ten. -/
def digitChar (d : Nat) : Char := Char.ofNat (48 + d)

/-- Decimal rendering of a natural number, the model of the SQL cast
next_id::TEXT in generate_work_order_id. -/
def natToText (n : Nat) : String :=
  if n = 0 then "0" else ⟨(Nat.digits 10 n).reverse.map digitChar⟩

/-- Digit value of a character, none when it is not a decimal digit. -/
def charDigit? (c : Char) : Option Nat :=
  if 48 ≤ c.toNat ∧ c.toNat ≤ 57 then some (c.toNat - 48) else none

/-- Accumulating decimal parse over a character list; any non-digit
character aborts, matching the SQL cast raising an error. -/
def castDigitsAux (acc : Nat) : List Char → Option Nat
  | [] => some acc
  | c :: cs =>
    match charDigit? c with
    | some d => castDigitsAux (acc * 10 + d) cs
    | none => none

/-- Model of CAST(s AS INTEGER) on a text value holding an unsigned
decimal numeral: none models the cast error. -/
def castInteger? (s : String) : Option Nat :=
  if s.data.isEmpty then none else castDigitsAux 0 s.data

/-- Model of SUBSTRING(s FROM 4): the string without its first three
characters. -/
def sqlSubstrFrom4 (s : String) : String := ⟨s.data.drop 3⟩

/-- Casting of every non-null code suffix; none as soon as one cast
fails, matching the SQL aggregate erroring out. -/
def castAll : List String → Option (List Nat)
  | [] => some []
  | c :: cs =>
    match castInteger? (sqlSubstrFrom4 c), castAll cs with
    | some k, some ks => some (k :: ks)
    | _, _ => none

/-- Embedding of public.generate_work_order_id over the list of
work_order_id column values: the non-null codes have their suffix after
position three cast to integers; the result is WO- followed by one plus
their maximum (zero for an empty set, via COALESCE). -/
def generate_work_order_id (codes : List (Option String)) : Option String :=
  (castAll (codes.filterMap id)).map fun ks =>
    "WO-" ++ natToText (ks.foldr max 0 + 1)

/-- Embedding of the BEFORE INSERT trigger function
public.set_work_order_id: a null incoming work_order_id is replaced by
the generated code, any other value is kept. -/
def set_work_order_id (incoming : Option String) (codes : List (Option String)) :
    Option String :=
  match incoming with
  | some c => some c
  | none => generate_work_order_id codes

/-- What the submission form displays afterwards: the returned
work_order_id column value, with empty-string fallback, as in
setWorkOrderId(data?.work_order_id || "") in WorkRequestForm.tsx. -/
def displayedWorkOrderId (returned : Option String) : String :=
  returned.getD ""

/-- Concrete client-side row used in concrete evaluations. -/
def sampleClient : ClientRequest :=
  { id := "req-1", work_order_id := some "WO-12", title := "Fix door",
    requested_date := "2025-01-01" }

/-- Digit characters have the digit value they denote. -/
theorem charDigit?_digitChar {d : Nat} (hd : d < 10) : charDigit? (digitChar d) = some d := by
  interval_cases d <;> rfl

/-- Parsing a rendered digit list accumulates the decimal value. -/
theorem castDigitsAux_map (l : List Nat) (acc : Nat) (hl : ∀ d ∈ l, d < 10) :
    castDigitsAux acc (l.map digitChar) = some (l.foldl (fun a d => a * 10 + d) acc) := by
  induction l generalizing acc with
  | nil => rfl
  | cons d tl ih =>
    have hd : d < 10 := hl d (by simp)
    simp only [List.map_cons, castDigitsAux, charDigit?_digitChar hd, List.foldl_cons]
    exact ih _ (fun x hx => hl x (by simp [hx]))

/-- The right fold used by the parser computes Nat.ofDigits base ten. -/
theorem foldr_eq_ofDigits (l : List Nat) :
    l.foldr (fun d a => a * 10 + d) 0 = Nat.ofDigits 10 l := by
  induction l with
  | nil => simp [Nat.ofDigits_nil]
  | cons d tl ih =>
    simp only [List.foldr_cons, ih, Nat.ofDigits_cons]
    omega

/-- The decimal cast is a left inverse of the decimal rendering. -/
theorem castInteger?_natToText (n : Nat) : castInteger? (natToText n) = some n := by
  rcases Nat.eq_zero_or_pos n with h | h
  · subst h; rfl
  · have hne : Nat.digits 10 n ≠ [] := Nat.digits_ne_nil_iff_ne_zero.mpr (by omega)
    have hlt : ∀ d ∈ (Nat.digits 10 n).reverse, d < 10 := by
      intro d hd
      exact Nat.digits_lt_base (by norm_num) (List.mem_reverse.mp hd)
    have hrepr : natToText n = ⟨(Nat.digits 10 n).reverse.map digitChar⟩ := by
      unfold natToText
      rw [if_neg (by omega)]
    rw [hrepr]
    show (if ((Nat.digits 10 n).reverse.map digitChar).isEmpty then none
          else castDigitsAux 0 ((Nat.digits 10 n).reverse.map digitChar)) = some n
    rw [if_neg (by simp [List.isEmpty_iff, hne])]
    rw [castDigitsAux_map _ _ hlt]
    congr 1
    rw [List.foldl_reverse]
    calc List.foldr (fun a b => b * 10 + a) 0 (Nat.digits 10 n)
        = List.foldr (fun d a => a * 10 + d) 0 (Nat.digits 10 n) := rfl
      _ = Nat.ofDigits 10 (Nat.digits 10 n) := foldr_eq_ofDigits _
      _ = n := Nat.ofDigits_digits 10 n

/-- Dropping the three prefix characters of a generated code returns the
rendered numeral. -/
theorem sqlSubstrFrom4_append (s : String) : sqlSubstrFrom4 ("WO-" ++ s) = s := by
  cases s
  rfl

/-- Every member of a list is bounded by the fold of max over it. -/
theorem le_foldr_max (l : List Nat) (k : Nat) (hk : k ∈ l) : k ≤ l.foldr max 0 := by
  induction l with
  | nil => cases hk
  | cons a tl ih =>
    rcases List.mem_cons.mp hk with h | h
    · subst h
      exact le_max_left _ _
    · exact le_trans (ih h) (le_max_right _ _)

/-- A successful castAll run casts every member of its input to a value
collected in its output. -/
theorem castAll_mem (l : List String) (ks : List Nat) (h : castAll l = some ks)
    (c : String) (hc : c ∈ l) : ∃ k ∈ ks, castInteger? (sqlSubstrFrom4 c) = some k := by
  induction l generalizing ks with
  | nil => cases hc
  | cons a tl ih =>
    unfold castAll at h
    cases ha : castInteger? (sqlSubstrFrom4 a) with
    | none => rw [ha] at h; cases h
    | some k =>
      cases htl : castAll tl with
      | none => rw [ha, htl] at h; cases h
      | some ks' =>
        rw [ha, htl] at h
        injection h with h
        subst h
        rcases List.mem_cons.mp hc with h | hmem
        · subst h
          exact ⟨k, by simp, ha⟩
        · rcases ih ks' htl hmem with ⟨k', hk', hck'⟩
          exact ⟨k', by simp [hk'], hck'⟩

/-- Forall₂ relates a list pointwise to its image under map. -/
theorem forall₂_map_eq {α : Type} (l : List α) (f : α → α) :
    List.Forall₂ (fun a b => b = f a) l (l.map f) := by
  induction l with
  | nil => simp
  | cons a tl ih => exact List.Forall₂.cons rfl ih

/-- C1: the client pause handler targets the status string "paused",
which the client status union contains but the server work_status enum
does not; the stored procedure therefore has no branch for it and the
server-side transition for that input is undefined, while the client
local model flips the row to paused — the two embeddings of the
transition logic are not equivalent for that input. -/
theorem C1_paused_status_divergence (row : ServerRow) (req : ClientRequest) (now : Nat)
    (prev : List ClientRequest) :
    (pauseRpc req).status = "paused" ∧
    ClientStatus.ofString "paused" = some ClientStatus.paused ∧
    WorkStatus.ofString "paused" = none ∧
    serverTransition row (pauseRpc req) now = none ∧
    (handlePause none req prev).1 =
      prev.map (fun r => if r.id == req.id then { r with status := "paused" } else r) :=
  ⟨rfl, rfl, rfl, rfl, rfl⟩

/-- C2: update_work_request_status is unguarded with respect to the
current status — its result does not depend on the stored status at all,
the status is always overwritten with the target, and repeating the same
call overwrites the previously written actor and timestamp fields, so
the last write wins and the procedure has no idempotency guarantee. -/
theorem C2_unguarded_last_write_wins (row : ServerRow) (s : WorkStatus) (a : UpdateArgs)
    (t t₁ t₂ : Nat) :
    (update_work_request_status row a t).status = a.status ∧
    update_work_request_status { row with status := s } a t =
      update_work_request_status row a t ∧
    update_work_request_status (update_work_request_status row a t₁) a t₂ =
      update_work_request_status row a t₂ := by
  refine ⟨rfl, rfl, ?_⟩
  rcases a with ⟨st, u, re, ho, no, nd⟩
  cases st <;> cases nd <;> simp [update_work_request_status]

/-- C3 counterexample: moving a pending row to approved through the
procedure with the _user_name argument left at its NULL default sets
approved_at to now but approved_by to NULL, so the pair is not both
non-null as the claim states. -/
theorem C3_counterexample :
    (update_work_request_status sampleRow { status := .approved } 0).status = .approved ∧
    (update_work_request_status sampleRow { status := .approved } 0).approved_at = some 0 ∧
    (update_work_request_status sampleRow { status := .approved } 0).approved_by = none :=
  ⟨rfl, rfl, rfl⟩

/-- C3 amended: each transition writes its actor and timestamp fields in
the same call — the timestamp is always set to now, and the actor field
is set to the _user_name argument, which is NULL when the default is
used, so the actor is non-null only when a user name is supplied. -/
theorem C3_actor_timestamp_written_together (row : ServerRow) (u : Option String)
    (re : Option String) (ho : Option Rat) (no : Option String) (nd : Option String)
    (now : Nat) :
    ((update_work_request_status row
        { status := .approved, user_name := u, reason := re, hours := ho, notes := no,
          new_requested_date := nd } now).approved_by = u ∧
     (update_work_request_status row
        { status := .approved, user_name := u, reason := re, hours := ho, notes := no,
          new_requested_date := nd } now).approved_at = some now) ∧
    ((update_work_request_status row
        { status := .rejected, user_name := u, reason := re, hours := ho, notes := no,
          new_requested_date := nd } now).rejected_by = u ∧
     (update_work_request_status row
        { status := .rejected, user_name := u, reason := re, hours := ho, notes := no,
          new_requested_date := nd } now).rejected_at = some now) ∧
    ((update_work_request_status row
        { status := .in_progress, user_name := u, reason := re, hours := ho, notes := no,
          new_requested_date := nd } now).started_by = u ∧
     (update_work_request_status row
        { status := .in_progress, user_name := u, reason := re, hours := ho, notes := no,
          new_requested_date := nd } now).started_at = some now) ∧
    ((update_work_request_status row
        { status := .completed, user_name := u, reason := re, hours := ho, notes := no,
          new_requested_date := nd } now).completed_by = u ∧
     (update_work_request_status row
        { status := .completed, user_name := u, reason := re, hours := ho, notes := no,
          new_requested_date := nd } now).completed_at = some now) :=
  ⟨⟨rfl, rfl⟩, ⟨rfl, rfl⟩, ⟨rfl, rfl⟩, ⟨rfl, rfl⟩⟩

/-- C4 counterexample: approving with a changed date and the reason
"Venue conflict" issues update_work_request_status with that reason, and
the procedure persists the new requested date but leaves both
date_changed_reason and rejected_reason untouched — the required reason
is not recorded on the persisted row on this path. -/
theorem C4_counterexample :
    approvalRpcIssued sampleClient "2025-02-01" "Venue conflict" =
      some (.updateStatus
        { request_id := "req-1", status := "approved", user_name := some "Admin",
          reason := some "Venue conflict", new_requested_date := some "2025-02-01" }) ∧
    (update_work_request_status sampleRow
        { status := .approved, user_name := some "Admin", reason := some "Venue conflict",
          new_requested_date := some "2025-02-01" } 5).requested_date = "2025-02-01" ∧
    (update_work_request_status sampleRow
        { status := .approved, user_name := some "Admin", reason := some "Venue conflict",
          new_requested_date := some "2025-02-01" } 5).date_changed_reason = none ∧
    (update_work_request_status sampleRow
        { status := .approved, user_name := some "Admin", reason := some "Venue conflict",
          new_requested_date := some "2025-02-01" } 5).rejected_reason = none := by
  refine ⟨by decide, rfl, rfl, rfl⟩

/-- C4 amended: both date-change paths require a non-empty trimmed
reason before issuing any update; the calendar save path records the
reason in date_changed_reason, while the approval-dialog path passes it
to update_work_request_status, which stores _reason only for rejected
status, so the approved row receives the new requested_date with its
date_changed_reason left unchanged. -/
theorem C4_date_change_reason_amended (target : ClientRequest) (newDate dateReason : String)
    (row : ServerRow) (now : Nat) (pc : List (String × String)) (creason nd : String)
    (dbe : Option String) (prev : List ClientRequest) :
    ((newDate != target.requested_date) = true → (jsTrim dateReason).isEmpty = true →
        approvalRpcIssued target newDate dateReason = none) ∧
    ((newDate != target.requested_date) = true → (jsTrim dateReason).isEmpty = false →
        approvalRpcIssued target newDate dateReason =
          some (.updateStatus
            { request_id := target.id, status := "approved", user_name := some "Admin",
              reason := some (jsTrim dateReason), new_requested_date := some newDate })) ∧
    ((update_work_request_status row
        { status := .approved, user_name := some "Admin", reason := some (jsTrim dateReason),
          new_requested_date := some newDate } now).requested_date = newDate ∧
     (update_work_request_status row
        { status := .approved, user_name := some "Admin", reason := some (jsTrim dateReason),
          new_requested_date := some newDate } now).date_changed_reason =
       row.date_changed_reason ∧
     (update_work_request_status row
        { status := .approved, user_name := some "Admin", reason := some (jsTrim dateReason),
          new_requested_date := some newDate } now).rejected_reason = row.rejected_reason) ∧
    (pc.isEmpty = false → (jsTrim creason).isEmpty = true →
        handleSaveChanges pc true creason dbe prev = (prev, .needReason)) ∧
    ((jsTrim creason).isEmpty = false →
        (calendarDbUpdate creason nd row).date_changed_reason = some (jsTrim creason) ∧
        (calendarDbUpdate creason nd row).requested_date = nd) := by
  refine ⟨?_, ?_, ⟨rfl, rfl, rfl⟩, ?_, ?_⟩
  · intro h1 h2
    unfold approvalRpcIssued
    simp [h1, h2]
  · intro h1 h2
    unfold approvalRpcIssued
    simp [h1, h2]
  · intro h1 h2
    unfold handleSaveChanges
    simp [h1, h2]
  · intro h
    constructor
    · simp [calendarDbUpdate, h]
    · rfl

/-- C4 witness: concrete instantiations of the amended theorem — an
empty reason blocks the approval RPC, a non-empty one travels with the
call, the calendar save demands a reason for moved orders, and the
calendar row update records the reason. -/
theorem C4_witness :
    approvalRpcIssued sampleClient "2025-02-01" "" = none ∧
    approvalRpcIssued sampleClient "2025-02-01" "Venue conflict" =
      some (.updateStatus
        { request_id := "req-1", status := "approved", user_name := some "Admin",
          reason := some (jsTrim "Venue conflict"),
          new_requested_date := some "2025-02-01" }) ∧
    handleSaveChanges [("req-1", "2025-02-01")] true " " none [] = ([], .needReason) ∧
    (calendarDbUpdate "Venue conflict" "2025-02-01" sampleRow).date_changed_reason =
      some (jsTrim "Venue conflict") :=
  ⟨(C4_date_change_reason_amended sampleClient "2025-02-01" "" sampleRow 0 [] "" ""
      none []).1 (by decide) (by decide),
   (C4_date_change_reason_amended sampleClient "2025-02-01" "Venue conflict" sampleRow 0 [] ""
      "" none []).2.1 (by decide) (by decide),
   (C4_date_change_reason_amended sampleClient "2025-02-01" "" sampleRow 0
      [("req-1", "2025-02-01")] " " "" none []).2.2.2.1 (by decide) (by decide),
   ((C4_date_change_reason_amended sampleClient "2025-02-01" "" sampleRow 0 []
      "Venue conflict" "2025-02-01" none []).2.2.2.2 (by decide)).1⟩

/-- C5 counterexample: calling the procedure with status rejected and
every optional argument left at its NULL default marks the row rejected
with a NULL rejected_reason, so a rejected request does not always carry
a non-empty reason. -/
theorem C5_counterexample :
    (update_work_request_status sampleRow { status := .rejected } 0).status = .rejected ∧
    (update_work_request_status sampleRow { status := .rejected } 0).rejected_reason =
      none :=
  ⟨rfl, rfl⟩

/-- C5 amended: the client reject dialog refuses trimmed reasons shorter
than ten characters and otherwise issues the procedure call with the
non-empty trimmed reason, which the procedure stores into
rejected_reason; the procedure itself does not enforce this, and with
its NULL default _reason it sets rejected_reason to NULL. -/
theorem C5_rejection_reason_amended (target : ClientRequest) (reason : String)
    (row : ServerRow) (u : Option String) (now : Nat) (e : Option String)
    (nowS : String) (prev : List ClientRequest) :
    ((jsTrim reason).length < 10 →
        rejectRpcIssued target reason = none ∧
        rejectHandleSubmit target reason e nowS prev = (prev, .destructive)) ∧
    (¬ (jsTrim reason).length < 10 →
        rejectRpcIssued target reason =
          some { request_id := target.id, status := "rejected", user_name := some "Admin",
                 reason := some (jsTrim reason) } ∧
        jsTrim reason ≠ "") ∧
    (∀ s : String,
        (update_work_request_status row
            { status := .rejected, user_name := u, reason := some s } now).rejected_reason =
          some s) := by
  refine ⟨?_, ?_, fun s => rfl⟩
  · intro h
    constructor
    · unfold rejectRpcIssued
      simp [h]
    · unfold rejectHandleSubmit
      simp [h]
  · intro h
    refine ⟨?_, ?_⟩
    · unfold rejectRpcIssued
      simp [h]
    · intro hemp
      rw [hemp] at h
      simp at h

/-- C5 witness: a five-character reason is refused, an eighteen-character
one is issued with the call. -/
theorem C5_witness :
    (rejectRpcIssued sampleClient "short" = none ∧
     rejectHandleSubmit sampleClient "short" none "T" [] = ([], .destructive)) ∧
    (rejectRpcIssued sampleClient "Budget constraints" =
        some { request_id := "req-1", status := "rejected", user_name := some "Admin",
               reason := some (jsTrim "Budget constraints") } ∧
     jsTrim "Budget constraints" ≠ "") :=
  ⟨(C5_rejection_reason_amended sampleClient "short" sampleRow none 0 none "T" []).1
      (by decide),
   (C5_rejection_reason_amended sampleClient "Budget constraints" sampleRow none 0 none "T"
      []).2.1 (by decide)⟩

/-- C6 counterexample: completing through the procedure with its NULL
default _hours marks the row completed with actual_hours NULL, so a
completed request does not always carry positive actual hours. -/
theorem C6_counterexample :
    (update_work_request_status sampleRow { status := .completed } 0).status = .completed ∧
    (update_work_request_status sampleRow { status := .completed } 0).actual_hours = none ∧
    (update_work_request_status sampleRow { status := .completed } 0).completed_at =
      some 0 :=
  ⟨rfl, rfl, rfl⟩

/-- C6 amended: the client complete dialog refuses non-positive hours
and otherwise issues complete_work carrying exactly the submitted
positive hours; completing through update_work_request_status stores
whatever _hours value is supplied, including its NULL default, so the
positivity of actual_hours is only guaranteed on the dialog path. -/
theorem C6_completion_hours_amended (target : ClientRequest) (hours : Rat) (notes : String)
    (row : ServerRow) (u : Option String) (now : Nat) (e : Option String)
    (nowS : String) (prev : List ClientRequest) :
    (hours ≤ 0 →
        completeRpcIssued target hours notes = none ∧
        completeHandleSubmit target hours notes e nowS prev = (prev, .destructive)) ∧
    (0 < hours →
        completeRpcIssued target hours notes =
          some { started_id := target.id, completed_by_user := "Admin",
                 actual_hours_worked := hours,
                 notes := if (jsTrim notes).isEmpty then none else some (jsTrim notes) }) ∧
    (∀ hr : Rat,
        (update_work_request_status row
            { status := .completed, user_name := u, hours := some hr } now).actual_hours =
          some hr) := by
  refine ⟨?_, ?_, fun hr => rfl⟩
  · intro h
    constructor
    · unfold completeRpcIssued
      simp [h]
    · unfold completeHandleSubmit
      simp [h]
  · intro h
    unfold completeRpcIssued
    rw [if_neg (not_le.mpr h)]

/-- C6 witness: zero hours are refused, two hours are issued with the
call. -/
theorem C6_witness :
    (completeRpcIssued sampleClient 0 "done" = none ∧
     completeHandleSubmit sampleClient 0 "done" none "T" [] = ([], .destructive)) ∧
    completeRpcIssued sampleClient 2 "done" =
      some { started_id := "req-1", completed_by_user := "Admin",
             actual_hours_worked := 2,
             notes := if (jsTrim "done").isEmpty then none else some (jsTrim "done") } :=
  ⟨(C6_completion_hours_amended sampleClient 0 "done" sampleRow none 0 none "T" []).1
      (by norm_num),
   (C6_completion_hours_amended sampleClient 2 "done" sampleRow none 0 none "T" []).2.1
      (by norm_num)⟩

/-- C7: whenever the suffixes of the stored non-null codes all cast to
integers, a NULL incoming work_order_id is filled by the before-insert
trigger with a code WO-n for a positive n, that code differs from every
stored code, and the submission form displays exactly the returned
identifier. -/
theorem C7_work_order_id_generation (codes : List (Option String)) (ks : List Nat)
    (hcast : castAll (codes.filterMap id) = some ks) :
    ∃ n : Nat, 0 < n ∧
      set_work_order_id none codes = some ("WO-" ++ natToText n) ∧
      displayedWorkOrderId (set_work_order_id none codes) = "WO-" ++ natToText n ∧
      ∀ c : String, some c ∈ codes → set_work_order_id none codes ≠ some c := by
  refine ⟨ks.foldr max 0 + 1, by omega, ?_, ?_, ?_⟩
  · unfold set_work_order_id generate_work_order_id
    rw [hcast]
    rfl
  · unfold set_work_order_id generate_work_order_id displayedWorkOrderId
    rw [hcast]
    rfl
  · intro c hc heq
    have hgen : "WO-" ++ natToText (ks.foldr max 0 + 1) = c := by
      unfold set_work_order_id generate_work_order_id at heq
      rw [hcast] at heq
      simpa using heq
    have hcmem : c ∈ codes.filterMap id := List.mem_filterMap.mpr ⟨some c, hc, rfl⟩
    rcases castAll_mem _ _ hcast c hcmem with ⟨k, hkmem, hkc⟩
    rw [← hgen, sqlSubstrFrom4_append, castInteger?_natToText] at hkc
    injection hkc with hkc
    have hle := le_foldr_max ks k hkmem
    omega

/-- C7 witness: with stored codes WO-1 and WO-3 and one NULL, the
trigger on a NULL incoming code produces a fresh positive WO code
distinct from both, and the form displays it. -/
theorem C7_witness :
    castAll (([some "WO-1", none, some "WO-3"] : List (Option String)).filterMap id) =
      some [1, 3] ∧
    (∃ n : Nat, 0 < n ∧
      set_work_order_id none [some "WO-1", none, some "WO-3"] =
        some ("WO-" ++ natToText n) ∧
      displayedWorkOrderId (set_work_order_id none [some "WO-1", none, some "WO-3"]) =
        "WO-" ++ natToText n ∧
      ∀ c : String, some c ∈ ([some "WO-1", none, some "WO-3"] : List (Option String)) →
        set_work_order_id none [some "WO-1", none, some "WO-3"] ≠ some c) :=
  ⟨by decide, C7_work_order_id_generation [some "WO-1", none, some "WO-3"] [1, 3] (by decide)⟩

/-- C8: both admin-view filters are pure elementwise predicates — each
result is a sublist of the input (same relative order, nothing added)
whose members are exactly the input members satisfying the predicate;
the input list itself is a value and is never modified. -/
theorem C8_filter_pure (requests : List ClientRequest) (search sf pf fd fs : String) :
    (filtered requests search sf pf).Sublist requests ∧
    (∀ r, r ∈ filtered requests search sf pf ↔
        r ∈ requests ∧ matchesFilter search sf pf r = true) ∧
    (filteredRequests requests fd fs).Sublist requests ∧
    (∀ r, r ∈ filteredRequests requests fd fs ↔
        r ∈ requests ∧ calendarMatches fd fs r = true) :=
  ⟨List.filter_sublist _, fun _ => List.mem_filter,
   List.filter_sublist _, fun _ => List.mem_filter⟩

/-- C9 counterexample: in the approval handler the follow-up checklist
persistence call is not error-checked — with the primary RPC succeeding
and the checklist update failing, the handler still mutates the local
list and reports success, so a failed backend call does not always leave
the UI model unchanged. -/
theorem C9_counterexample :
    (approvalHandleSubmit sampleClient sampleClient.requested_date ""
        [⟨"c1", "check vendor", false⟩] none (some "network error") "2025-01-02T00:00:00Z"
        [sampleClient]).2 = ToastKind.success ∧
    (approvalHandleSubmit sampleClient sampleClient.requested_date ""
        [⟨"c1", "check vendor", false⟩] none (some "network error") "2025-01-02T00:00:00Z"
        [sampleClient]).1 ≠ [sampleClient] := by
  constructor
  · rfl
  · decide

/-- C9 amended: whenever the primary backend call of a handler (pause,
resume, start work, approve, reject, complete, calendar save) returns an
error, the handler leaves the local work-request list unchanged and
surfaces an error outcome; the unchecked secondary calls (the approval
checklist save and the calendar notification webhook) are the only
exception to the claim. -/
theorem C9_error_leaves_state_amended (e : String) (req target : ClientRequest)
    (prev : List ClientRequest) (newDate dateReason notes nowS reason : String)
    (checklist : List ChecklistItem) (ce : Option String) (hours : Rat)
    (pc : List (String × String)) (b : Bool) (creason : String) :
    handlePause (some e) req prev = (prev, .destructive) ∧
    handleResume (some e) req prev = (prev, .destructive) ∧
    handleStartWork (some e) req nowS prev = (prev, .destructive) ∧
    approvalHandleSubmit target newDate dateReason checklist (some e) ce nowS prev =
      (prev, .destructive) ∧
    rejectHandleSubmit target reason (some e) nowS prev = (prev, .destructive) ∧
    completeHandleSubmit target hours notes (some e) nowS prev = (prev, .destructive) ∧
    (handleSaveChanges pc b creason (some e) prev).1 = prev := by
  refine ⟨rfl, rfl, rfl, ?_, ?_, ?_, ?_⟩
  · cases hb : ((newDate != target.requested_date) && (jsTrim dateReason).isEmpty) <;>
      simp [approvalHandleSubmit, hb]
  · simp [rejectHandleSubmit]
  · simp [completeHandleSubmit]
  · unfold handleSaveChanges
    split
    · rfl
    · split <;> rfl

/-- C10: the realtime callback touches only the affected rows — INSERT
prepends the incoming row leaving the rest as they were, UPDATE keeps
the length and rewrites exactly the positions whose id matches the
incoming row, DELETE keeps the order and retains exactly the rows whose
id differs from the deleted one. -/
theorem C10_realtime_frame (row : ClientRequest) (oldId : String)
    (prev : List ClientRequest) :
    handleRealtimeEvent (.insert row) prev = row :: prev ∧
    (handleRealtimeEvent (.update row) prev).length = prev.length ∧
    List.Forall₂ (fun old new => new = if old.id == row.id then row else old)
      prev (handleRealtimeEvent (.update row) prev) ∧
    (handleRealtimeEvent (.delete oldId) prev).Sublist prev ∧
    (∀ r, r ∈ handleRealtimeEvent (.delete oldId) prev ↔ r ∈ prev ∧ r.id ≠ oldId) := by
  refine ⟨rfl, List.length_map _ _, forall₂_map_eq prev _, List.filter_sublist _,
    fun r => ?_⟩
  show r ∈ prev.filter (fun r => r.id != oldId) ↔ _
  rw [List.mem_filter]
  simp [bne_iff_ne]

end Harborside
